import Mathlib

/-!
# FOCUS-generator: verification of the record generation and validation engine

Shallow embedding of the FOCUS CUR generator.  The Schema Catalog (feature
levels, data types, nullability, allowed values of the 50 FOCUS v1.1 columns)
is transcribed from `src/backend/src/focus_audit.md` and
`src/backend/focus_relationships.md`.  The frontend boundary functions
(`generateCUR`, `handleRowCountChange`, request-body construction) are
transcribed from `src/frontend/src/hooks/useFocusGenerator.js`.  The core
engine (`curGen.py`, `validate_cur.py`, `enhanced_validate_cur.py`, `main.py`)
is not part of the available sources, so those operations are modelled from
the specification, as marked in their doc comments.
-/

namespace FocusGen

/-- A column value: FOCUS columns are strings, decimals, datetimes or
JSON-like structured values.  Decimals are modelled as integers in a fixed
minor unit; datetimes as hours since a fixed epoch. -/
inductive Value where
  | str (s : String)
  | dec (q : Int)
  | dt (t : Nat)
  | json (s : String)
deriving DecidableEq

/-- Feature level of a column in the Schema Catalog. -/
inductive FeatureLevel where
  | Mandatory
  | Recommended
  | Conditional
deriving DecidableEq

/-- Declared data type of a column in the Schema Catalog. -/
inductive DataType where
  | string
  | decimal
  | datetime
  | json
deriving DecidableEq

/-- The 50 FOCUS v1.1 column names, in the order fixed by the Schema
Catalog (`focus_audit.md`, rows 1-50). -/
inductive ColumnName where
  | availabilityZone
  | billedCost
  | billingAccountId
  | billingAccountName
  | billingCurrency
  | billingPeriodEnd
  | billingPeriodStart
  | capacityReservationId
  | capacityReservationStatus
  | chargeCategory
  | chargeClass
  | chargeDescription
  | chargeFrequency
  | chargePeriodEnd
  | chargePeriodStart
  | commitmentDiscountCategory
  | commitmentDiscountId
  | commitmentDiscountName
  | commitmentDiscountQuantity
  | commitmentDiscountStatus
  | commitmentDiscountType
  | commitmentDiscountUnit
  | consumedQuantity
  | consumedUnit
  | contractedCost
  | contractedUnitPrice
  | effectiveCost
  | invoiceIssuerName
  | listCost
  | listUnitPrice
  | pricingCategory
  | pricingQuantity
  | pricingUnit
  | providerName
  | publisherName
  | regionId
  | regionName
  | resourceId
  | resourceName
  | resourceType
  | serviceCategory
  | serviceName
  | serviceSubcategory
  | skuId
  | skuMeter
  | skuPriceDetails
  | skuPriceId
  | subAccountId
  | subAccountName
  | tags
deriving DecidableEq

open ColumnName

/-- The fixed 50-column order of the FOCUS v1.1 schema. -/
def allColumns : List ColumnName :=
  [availabilityZone, billedCost, billingAccountId, billingAccountName,
   billingCurrency, billingPeriodEnd, billingPeriodStart,
   capacityReservationId, capacityReservationStatus, chargeCategory,
   chargeClass, chargeDescription, chargeFrequency, chargePeriodEnd,
   chargePeriodStart, commitmentDiscountCategory, commitmentDiscountId,
   commitmentDiscountName, commitmentDiscountQuantity,
   commitmentDiscountStatus, commitmentDiscountType, commitmentDiscountUnit,
   consumedQuantity, consumedUnit, contractedCost, contractedUnitPrice,
   effectiveCost, invoiceIssuerName, listCost, listUnitPrice,
   pricingCategory, pricingQuantity, pricingUnit, providerName,
   publisherName, regionId, regionName, resourceId, resourceName,
   resourceType, serviceCategory, serviceName, serviceSubcategory, skuId,
   skuMeter, skuPriceDetails, skuPriceId, subAccountId, subAccountName,
   tags]

/-- Feature level per column, from the audit table in `focus_audit.md`. -/
def featureLevel : ColumnName → FeatureLevel
  | billedCost | billingAccountId | billingAccountName | billingCurrency
  | billingPeriodEnd | billingPeriodStart | chargeCategory | chargeClass
  | chargeDescription | chargePeriodEnd | chargePeriodStart | providerName
  | serviceCategory | serviceName => .Mandatory
  | availabilityZone | chargeFrequency | effectiveCost | invoiceIssuerName
  | listCost | listUnitPrice | pricingCategory | regionId | regionName
  | resourceId | resourceName | resourceType | serviceSubcategory
  | subAccountId | subAccountName | tags => .Recommended
  | _ => .Conditional

/-- Declared data type per column, from the audit table in
`focus_audit.md`. -/
def dataType : ColumnName → DataType
  | billedCost | commitmentDiscountQuantity | consumedQuantity
  | contractedCost | contractedUnitPrice | effectiveCost | listCost
  | listUnitPrice | pricingQuantity => .decimal
  | billingPeriodEnd | billingPeriodStart | chargePeriodEnd
  | chargePeriodStart => .datetime
  | skuPriceDetails | tags => .json
  | _ => .string

/-- Whether the column allows nulls, from the audit table in
`focus_audit.md` (mandatory columns other than BillingAccountName,
ChargeClass and ChargeDescription forbid nulls; per the engine contract the
validator treats every Mandatory column as required to be non-null). -/
def allowsNulls : ColumnName → Bool
  | billedCost | billingAccountId | billingCurrency | billingPeriodEnd
  | billingPeriodStart | chargeCategory | chargeFrequency | chargePeriodEnd
  | chargePeriodStart | providerName | serviceCategory
  | serviceName => false
  | _ => true

/-- Allowed-value sets, for the columns whose enumerations the available
documentation states (`focus_relationships.md`): ChargeCategory,
ChargeFrequency, the commitment-discount status/category and the capacity
reservation status.  Columns whose enumerations are not spelled out in the
available sources are left unconstrained. -/
def allowedValues : ColumnName → Option (List String)
  | chargeCategory => some ["Usage", "Purchase", "Tax", "Credit", "Adjustment"]
  | chargeFrequency => some ["One-Time", "Recurring", "Usage-Based"]
  | commitmentDiscountStatus => some ["Used", "Unused"]
  | commitmentDiscountCategory => some ["Usage", "Spend"]
  | capacityReservationStatus => some ["Used", "Unused"]
  | _ => none

/-- One FOCUS record: the fixed mapping of the 50 column names to
(possibly null) values. -/
structure FocusRecord where
  availabilityZone : Option Value
  billedCost : Option Value
  billingAccountId : Option Value
  billingAccountName : Option Value
  billingCurrency : Option Value
  billingPeriodEnd : Option Value
  billingPeriodStart : Option Value
  capacityReservationId : Option Value
  capacityReservationStatus : Option Value
  chargeCategory : Option Value
  chargeClass : Option Value
  chargeDescription : Option Value
  chargeFrequency : Option Value
  chargePeriodEnd : Option Value
  chargePeriodStart : Option Value
  commitmentDiscountCategory : Option Value
  commitmentDiscountId : Option Value
  commitmentDiscountName : Option Value
  commitmentDiscountQuantity : Option Value
  commitmentDiscountStatus : Option Value
  commitmentDiscountType : Option Value
  commitmentDiscountUnit : Option Value
  consumedQuantity : Option Value
  consumedUnit : Option Value
  contractedCost : Option Value
  contractedUnitPrice : Option Value
  effectiveCost : Option Value
  invoiceIssuerName : Option Value
  listCost : Option Value
  listUnitPrice : Option Value
  pricingCategory : Option Value
  pricingQuantity : Option Value
  pricingUnit : Option Value
  providerName : Option Value
  publisherName : Option Value
  regionId : Option Value
  regionName : Option Value
  resourceId : Option Value
  resourceName : Option Value
  resourceType : Option Value
  serviceCategory : Option Value
  serviceName : Option Value
  serviceSubcategory : Option Value
  skuId : Option Value
  skuMeter : Option Value
  skuPriceDetails : Option Value
  skuPriceId : Option Value
  subAccountId : Option Value
  subAccountName : Option Value
  tags : Option Value
deriving DecidableEq

/-- Look up a column of a record by its catalog name. -/
def getCol (r : FocusRecord) : ColumnName → Option Value
  | .availabilityZone => r.availabilityZone
  | .billedCost => r.billedCost
  | .billingAccountId => r.billingAccountId
  | .billingAccountName => r.billingAccountName
  | .billingCurrency => r.billingCurrency
  | .billingPeriodEnd => r.billingPeriodEnd
  | .billingPeriodStart => r.billingPeriodStart
  | .capacityReservationId => r.capacityReservationId
  | .capacityReservationStatus => r.capacityReservationStatus
  | .chargeCategory => r.chargeCategory
  | .chargeClass => r.chargeClass
  | .chargeDescription => r.chargeDescription
  | .chargeFrequency => r.chargeFrequency
  | .chargePeriodEnd => r.chargePeriodEnd
  | .chargePeriodStart => r.chargePeriodStart
  | .commitmentDiscountCategory => r.commitmentDiscountCategory
  | .commitmentDiscountId => r.commitmentDiscountId
  | .commitmentDiscountName => r.commitmentDiscountName
  | .commitmentDiscountQuantity => r.commitmentDiscountQuantity
  | .commitmentDiscountStatus => r.commitmentDiscountStatus
  | .commitmentDiscountType => r.commitmentDiscountType
  | .commitmentDiscountUnit => r.commitmentDiscountUnit
  | .consumedQuantity => r.consumedQuantity
  | .consumedUnit => r.consumedUnit
  | .contractedCost => r.contractedCost
  | .contractedUnitPrice => r.contractedUnitPrice
  | .effectiveCost => r.effectiveCost
  | .invoiceIssuerName => r.invoiceIssuerName
  | .listCost => r.listCost
  | .listUnitPrice => r.listUnitPrice
  | .pricingCategory => r.pricingCategory
  | .pricingQuantity => r.pricingQuantity
  | .pricingUnit => r.pricingUnit
  | .providerName => r.providerName
  | .publisherName => r.publisherName
  | .regionId => r.regionId
  | .regionName => r.regionName
  | .resourceId => r.resourceId
  | .resourceName => r.resourceName
  | .resourceType => r.resourceType
  | .serviceCategory => r.serviceCategory
  | .serviceName => r.serviceName
  | .serviceSubcategory => r.serviceSubcategory
  | .skuId => r.skuId
  | .skuMeter => r.skuMeter
  | .skuPriceDetails => r.skuPriceDetails
  | .skuPriceId => r.skuPriceId
  | .subAccountId => r.subAccountId
  | .subAccountName => r.subAccountName
  | .tags => r.tags

/-- The catalog name string of each column, per `focus_audit.md`. -/
def colName : ColumnName → String
  | .availabilityZone => "AvailabilityZone"
  | .billedCost => "BilledCost"
  | .billingAccountId => "BillingAccountId"
  | .billingAccountName => "BillingAccountName"
  | .billingCurrency => "BillingCurrency"
  | .billingPeriodEnd => "BillingPeriodEnd"
  | .billingPeriodStart => "BillingPeriodStart"
  | .capacityReservationId => "CapacityReservationId"
  | .capacityReservationStatus => "CapacityReservationStatus"
  | .chargeCategory => "ChargeCategory"
  | .chargeClass => "ChargeClass"
  | .chargeDescription => "ChargeDescription"
  | .chargeFrequency => "ChargeFrequency"
  | .chargePeriodEnd => "ChargePeriodEnd"
  | .chargePeriodStart => "ChargePeriodStart"
  | .commitmentDiscountCategory => "CommitmentDiscountCategory"
  | .commitmentDiscountId => "CommitmentDiscountId"
  | .commitmentDiscountName => "CommitmentDiscountName"
  | .commitmentDiscountQuantity => "CommitmentDiscountQuantity"
  | .commitmentDiscountStatus => "CommitmentDiscountStatus"
  | .commitmentDiscountType => "CommitmentDiscountType"
  | .commitmentDiscountUnit => "CommitmentDiscountUnit"
  | .consumedQuantity => "ConsumedQuantity"
  | .consumedUnit => "ConsumedUnit"
  | .contractedCost => "ContractedCost"
  | .contractedUnitPrice => "ContractedUnitPrice"
  | .effectiveCost => "EffectiveCost"
  | .invoiceIssuerName => "InvoiceIssuerName"
  | .listCost => "ListCost"
  | .listUnitPrice => "ListUnitPrice"
  | .pricingCategory => "PricingCategory"
  | .pricingQuantity => "PricingQuantity"
  | .pricingUnit => "PricingUnit"
  | .providerName => "ProviderName"
  | .publisherName => "PublisherName"
  | .regionId => "RegionId"
  | .regionName => "RegionName"
  | .resourceId => "ResourceId"
  | .resourceName => "ResourceName"
  | .resourceType => "ResourceType"
  | .serviceCategory => "ServiceCategory"
  | .serviceName => "ServiceName"
  | .serviceSubcategory => "ServiceSubcategory"
  | .skuId => "SkuId"
  | .skuMeter => "SkuMeter"
  | .skuPriceDetails => "SkuPriceDetails"
  | .skuPriceId => "SkuPriceId"
  | .subAccountId => "SubAccountId"
  | .subAccountName => "SubAccountName"
  | .tags => "Tags"

/-- Organization-size archetype controlling cost magnitude. -/
inductive Profile where
  | Greenfield
  | LargeBusiness
  | Enterprise
deriving DecidableEq

/-- Bias pattern over which services dominate the generated spend. -/
inductive Distribution where
  | EvenlyDistributed
  | MLFocused
  | DataIntensive
  | MediaIntensive
deriving DecidableEq

/-- Supported cloud providers. -/
inductive CloudProvider where
  | AWS
  | Azure
  | GCP
deriving DecidableEq

/-- Multi-month trend options of a request. -/
structure TrendOpts where
  monthCount : Int
  scenario : String
  growthRate : Int
deriving DecidableEq

/-- A generation request as handed to the core engine.  `rowCount` is an
integer so that out-of-range values (such as -1) are expressible. -/
structure GenerationRequest where
  profile : Profile
  distribution : Distribution
  providers : List CloudProvider
  rowCount : Int
  multiMonth : Bool
  trendOptions : Option TrendOpts
deriving DecidableEq

/-- A generation request is well formed when the row count is positive, at
least one provider is selected and, for multi-month requests, the month
count lies in the documented range 2..12. -/
def ValidRequest (req : GenerationRequest) : Prop :=
  0 < req.rowCount ∧ req.providers ≠ [] ∧
    (req.multiMonth = true →
      ∃ t, req.trendOptions = some t ∧ 2 ≤ t.monthCount ∧ t.monthCount ≤ 12)

instance : DecidablePred ValidRequest := fun req => by
  unfold ValidRequest
  infer_instance

/-- Modelled from the spec: the seeded, reproducible random stream of a
Generation Context — one step of a linear congruential generator. -/
def lcg (s : Nat) : Nat := (1103515245 * s + 12345) % 2147483648

/-- Iterated RNG steps. -/
def lcgN : Nat → Nat → Nat
  | 0, s => s
  | n + 1, s => lcg (lcgN n s)

/-- Modelled from the spec: the j-th random value drawn from the per-row
stream seeded by `rowSeed` (the spec derives per-row seeds as
`baseSeed + rowIndex` for reproducibility). -/
def rv (rowSeed j : Nat) : Nat := lcgN (j + 1) rowSeed

/-- Per-profile monthly cost magnitude envelope (Greenfield much smaller
than LargeBusiness, much smaller than Enterprise). -/
def profileBase : Profile → Int
  | .Greenfield => 100
  | .LargeBusiness => 10000
  | .Enterprise => 1000000

/-- Display string of a provider. -/
def providerStr : CloudProvider → String
  | .AWS => "AWS"
  | .Azure => "Azure"
  | .GCP => "GCP"

/-- Modelled from the spec: ChargeCategory drawn from a weighted
categorical distribution (Usage much more likely than Purchase, Tax,
Credit, Adjustment). -/
def chargeCategoryOf (n : Nat) : String :=
  if n % 100 < 60 then "Usage"
  else if n % 100 < 75 then "Purchase"
  else if n % 100 < 85 then "Tax"
  else if n % 100 < 95 then "Credit"
  else "Adjustment"

/-- Modelled from the spec: ChargeFrequency with its domain restricted by
the already-chosen ChargeCategory (Usage-Based excluded when the category
is Purchase). -/
def chargeFrequencyOf (cat : String) (n : Nat) : String :=
  if cat = "Purchase" then
    if n % 2 = 0 then "One-Time" else "Recurring"
  else
    if n % 3 = 0 then "One-Time"
    else if n % 3 = 1 then "Recurring"
    else "Usage-Based"

/-- A Used/Unused status draw. -/
def statusOf (n : Nat) : String := if n % 2 = 0 then "Used" else "Unused"

/-- Modelled from the spec: the distribution selects a weighted service
category. -/
def serviceCategoryOf (d : Distribution) (n : Nat) : String :=
  match d with
  | .EvenlyDistributed =>
      if n % 4 = 0 then "Compute"
      else if n % 4 = 1 then "Storage"
      else if n % 4 = 2 then "Databases"
      else "Networking"
  | .MLFocused => if n % 4 = 0 then "Compute" else "AI and Machine Learning"
  | .DataIntensive => if n % 2 = 0 then "Storage" else "Databases"
  | .MediaIntensive => if n % 4 = 0 then "Storage" else "Media"

/-- The service name drawn within the selected category (joint sampling
keeps the pair coherent). -/
def serviceNameOf (cat : String) : String := cat ++ " Service"

/-- Modelled from the spec: one record built by the Column Generators in
dependency order (classification, time periods, service identity,
SKU/pricing, cost amounts, commitment/capacity, usage metrics,
metadata/tags) from the per-row random stream seeded `seed + i`.
`curGen.py` is not among the available sources; each field follows the
algorithm description of the specification:
classification draws, a billing month per period index with the charge
period a sub-interval of it, profile-scaled costs with discount-rate
sampling, a single Bernoulli gate for the commitment-discount chain and
another for capacity reservation, Tax rows carrying no SKU fields, and
templated description strings. -/
def genRow (req : GenerationRequest) (seed : Nat) (i : Nat) : FocusRecord :=
  let rows := req.rowCount.toNat
  let p := if rows = 0 then 0 else i / rows
  let r := rv (seed + i)
  let cat := chargeCategoryOf (r 0)
  let freq := chargeFrequencyOf cat (r 1)
  let cls := if r 2 % 20 = 0 then "Correction" else "Standard"
  let bs := 720 * p
  let be := bs + 720
  let cs := bs + r 3 % 600
  let ce := cs + 1 + r 4 % 120
  let billed : Int := profileBase req.profile * (1 + (r 5 % 100 : Nat))
  let list : Int := billed + billed * (r 6 % 50 : Nat) / 100
  let eff : Int := billed - billed * (r 7 % 30 : Nat) / 100
  let commit := r 8 % 4 = 0
  let capr := r 11 % 5 = 0
  let provider :=
    providerStr (req.providers.getD (r 13 % req.providers.length) .AWS)
  let svcCat := serviceCategoryOf req.distribution (r 14)
  let svc := serviceNameOf svcCat
  let pq : Int := 1 + (r 15 % 1000 : Nat)
  { availabilityZone := some (.str (provider ++ "-az1"))
    billedCost := some (.dec billed)
    billingAccountId := some (.str "billing-account-1")
    billingAccountName := some (.str "Primary Billing Account")
    billingCurrency := some (.str "USD")
    billingPeriodEnd := some (.dt be)
    billingPeriodStart := some (.dt bs)
    capacityReservationId := if capr then some (.str "capres-1") else none
    capacityReservationStatus :=
      if capr then some (.str (statusOf (r 12))) else none
    chargeCategory := some (.str cat)
    chargeClass := some (.str cls)
    chargeDescription := some (.str (cat ++ " charge for " ++ svc))
    chargeFrequency := some (.str freq)
    chargePeriodEnd := some (.dt ce)
    chargePeriodStart := some (.dt cs)
    commitmentDiscountCategory :=
      if commit then some (.str (if r 10 % 2 = 0 then "Usage" else "Spend"))
      else none
    commitmentDiscountId := if commit then some (.str "cd-1") else none
    commitmentDiscountName :=
      if commit then some (.str ("Commitment for " ++ svc)) else none
    commitmentDiscountQuantity := if commit then some (.dec 1) else none
    commitmentDiscountStatus :=
      if commit then some (.str (statusOf (r 9))) else none
    commitmentDiscountType :=
      if commit then some (.str "SavingsPlan") else none
    commitmentDiscountUnit := if commit then some (.str "Hours") else none
    consumedQuantity := some (.dec (1 + (r 16 % 1000 : Nat)))
    consumedUnit := some (.str "Hours")
    contractedCost := some (.dec billed)
    contractedUnitPrice := some (.dec 1)
    effectiveCost := some (.dec eff)
    invoiceIssuerName := some (.str provider)
    listCost := some (.dec list)
    listUnitPrice := some (.dec 2)
    pricingCategory := some (.str "Standard")
    pricingQuantity := some (.dec pq)
    pricingUnit := some (.str "Hours")
    providerName := some (.str provider)
    publisherName := some (.str provider)
    regionId := some (.str "us-east-1")
    regionName := some (.str "US East")
    resourceId := some (.str ("resource-" ++ toString (r 17 % 50)))
    resourceName := some (.str ("name-" ++ toString (r 17 % 50)))
    resourceType := some (.str svcCat)
    serviceCategory := some (.str svcCat)
    serviceName := some (.str svc)
    serviceSubcategory := some (.str (svcCat ++ " General"))
    skuId := if cat = "Tax" then none else some (.str "SKU-0001")
    skuMeter := if cat = "Tax" then none else some (.str "Compute Hours")
    skuPriceDetails := if cat = "Tax" then none else some (.json "sku-details")
    skuPriceId := if cat = "Tax" then none else some (.str "SKUPRICE-0001")
    subAccountId := some (.str "sub-account-1")
    subAccountName := some (.str "Sub Account")
    tags := some (.json "env:test,team:finops") }

/-- The number of billing periods a request spans. -/
def periodCount (req : GenerationRequest) : Nat :=
  if req.multiMonth then
    match req.trendOptions with
    | some t => t.monthCount.toNat
    | none => 1
  else 1

/-- The total number of rows a request yields (`rowCount` rows per
period). -/
def totalRows (req : GenerationRequest) : Nat :=
  req.rowCount.toNat * periodCount req

/-- Modelled from the spec: the Orchestrator.  For each row index it builds
one record from the per-row seeded stream and appends it to the output
sequence. -/
def generate (req : GenerationRequest) (seed : Nat) : List FocusRecord :=
  (List.range (totalRows req)).map (genRow req seed)

/-- Error taxonomy of the core. -/
inductive FocusError where
  | configurationError
  | generationError
deriving DecidableEq

/-- Modelled from the spec: the core entry point that defensively rejects a
malformed request with a `ConfigurationError` (non-positive row count,
missing or out-of-range month count) before any generation work begins. -/
def generateChecked (req : GenerationRequest) (seed : Nat) :
    Except FocusError (List FocusRecord) :=
  if req.rowCount ≤ 0 then .error .configurationError
  else if req.multiMonth then
    match req.trendOptions with
    | some t =>
        if t.monthCount < 2 ∨ 12 < t.monthCount then .error .configurationError
        else .ok (generate req seed)
    | none => .error .configurationError
  else .ok (generate req seed)

/-- One itemized validation finding. -/
structure Violation where
  rowIndex : Nat
  column : String
  rule : String
  message : String
deriving DecidableEq

/-- The structured result of validating a dataset. -/
structure ValidationReport where
  valid : Bool
  violations : List Violation
deriving DecidableEq

/-- Whether a value matches a declared data type. -/
def typeMatches : DataType → Value → Bool
  | .string, .str _ => true
  | .decimal, .dec _ => true
  | .datetime, .dt _ => true
  | .json, .json _ => true
  | _, _ => false

/-- Whether a value respects an optional allowed-value set (non-string
values are left to the data-type check). -/
def allowedOk : Option (List String) → Value → Bool
  | none, _ => true
  | some vs, .str s => vs.contains s
  | some _, _ => true

/-- Extract a datetime value. -/
def asDt : Option Value → Option Nat
  | some (.dt t) => some t
  | _ => none

/-- Extract a decimal value. -/
def asDec : Option Value → Option Int
  | some (.dec q) => some q
  | _ => none

/-- Modelled from the spec: the basic per-column checks of the Validation
Engine for one column of one row — a Mandatory column must be non-null, a
non-nullable column must be non-null, a present value must match its
declared data type and its allowed-value set. -/
def checksFor (idx : Nat) (r : FocusRecord) (c : ColumnName) : List Violation :=
  match getCol r c with
  | none =>
      if featureLevel c = .Mandatory then
        [⟨idx, colName c, "mandatory_nonnull", "mandatory column is null"⟩]
      else if allowsNulls c then []
      else [⟨idx, colName c, "not_nullable", "non-nullable column is null"⟩]
  | some v =>
      (if typeMatches (dataType c) v then []
       else [⟨idx, colName c, "data_type", "value has wrong data type"⟩]) ++
      (if allowedOk (allowedValues c) v then []
       else [⟨idx, colName c, "allowed_values", "value not in allowed set"⟩])

/-- Concatenation of per-column findings over a list of columns. -/
def catMap (f : ColumnName → List Violation) : List ColumnName → List Violation
  | [] => []
  | c :: cs => f c ++ catMap f cs

/-- Modelled from the spec: the basic layer of the Validation Engine for
one row, driven by the Schema Catalog over the 50 columns. -/
def basicViolations (idx : Nat) (r : FocusRecord) : List Violation :=
  catMap (checksFor idx r) allColumns

/-- Modelled from the spec: the enhanced cross-column checks of the
Validation Engine for one row (the eight rules of the engine contract). -/
def enhancedViolations (idx : Nat) (r : FocusRecord) : List Violation :=
  (if r.chargeCategory = some (.str "Tax") ∧
      ¬(r.skuId = none ∧ r.skuPriceId = none) then
    [⟨idx, "SkuId", "tax_sku_null", "Tax rows must not carry SKU fields"⟩]
   else []) ++
  (if r.chargeCategory = some (.str "Purchase") ∧
      r.chargeFrequency = some (.str "Usage-Based") then
    [⟨idx, "ChargeFrequency", "purchase_frequency",
      "Purchase rows cannot be Usage-Based"⟩]
   else []) ++
  (if ¬(r.commitmentDiscountId = none ↔
        (r.commitmentDiscountName = none ∧
         r.commitmentDiscountStatus = none ∧
         r.commitmentDiscountType = none ∧
         r.commitmentDiscountCategory = none ∧
         r.commitmentDiscountQuantity = none ∧
         r.commitmentDiscountUnit = none)) then
    [⟨idx, "CommitmentDiscountId", "commitment_chain",
      "commitment discount columns must be all null or all set"⟩]
   else []) ++
  (if r.chargeCategory = some (.str "Usage") ∧
      r.commitmentDiscountId ≠ none ∧
      r.commitmentDiscountStatus = none then
    [⟨idx, "CommitmentDiscountStatus", "commitment_status",
      "usage rows with a commitment need a status"⟩]
   else []) ++
  (if r.capacityReservationId = none ∧
      r.capacityReservationStatus ≠ none then
    [⟨idx, "CapacityReservationStatus", "capacity_status",
      "capacity status requires a reservation id"⟩]
   else []) ++
  (if r.chargeCategory = some (.str "Usage") ∧
      r.chargeClass ≠ some (.str "Correction") ∧
      r.pricingQuantity = none then
    [⟨idx, "PricingQuantity", "usage_pricing_quantity",
      "usage rows need a pricing quantity"⟩]
   else []) ++
  (match asDt r.billingPeriodStart, asDt r.billingPeriodEnd with
   | some bs, some be =>
       if bs < be then []
       else [⟨idx, "BillingPeriodStart", "billing_period_order",
              "billing period start must precede its end"⟩]
   | _, _ => []) ++
  (match asDt r.chargePeriodStart, asDt r.chargePeriodEnd with
   | some cs, some ce =>
       if cs < ce then []
       else [⟨idx, "ChargePeriodStart", "charge_period_order",
              "charge period start must precede its end"⟩]
   | _, _ => []) ++
  (match asDt r.billingPeriodStart, asDt r.chargePeriodStart with
   | some bs, some cs =>
       if bs ≤ cs then []
       else [⟨idx, "ChargePeriodStart", "charge_in_billing_start",
              "charge period must start inside the billing period"⟩]
   | _, _ => []) ++
  (match asDt r.chargePeriodEnd, asDt r.billingPeriodEnd with
   | some ce, some be =>
       if ce ≤ be then []
       else [⟨idx, "ChargePeriodEnd", "charge_in_billing_end",
              "charge period must end inside the billing period"⟩]
   | _, _ => []) ++
  (match asDec r.effectiveCost, asDec r.listCost with
   | some e, some l =>
       if e ≤ l then []
       else [⟨idx, "EffectiveCost", "cost_order",
              "effective cost cannot exceed list cost"⟩]
   | _, _ => []) ++
  (match asDec r.billedCost with
   | some b =>
       if 0 ≤ b then []
       else [⟨idx, "BilledCost", "billed_nonnegative",
              "billed cost must be non-negative"⟩]
   | none => [])

/-- All findings for one row. -/
def rowViolations (idx : Nat) (r : FocusRecord) : List Violation :=
  basicViolations idx r ++ enhancedViolations idx r

/-- All findings for a dataset, rows numbered from `idx`. -/
def datasetViolations : Nat → List FocusRecord → List Violation
  | _, [] => []
  | idx, r :: rs => rowViolations idx r ++ datasetViolations (idx + 1) rs

/-- Modelled from the spec: the Validation Engine — a pure scan that
collects every violation of the basic and enhanced layers over the whole
dataset and reports pass/fail. -/
def validate (recs : List FocusRecord) : ValidationReport :=
  let vs := datasetViolations 0 recs
  { valid := vs.isEmpty, violations := vs }

/-! ## Engine lemmas: every generated row passes every check -/

lemma chargeCategoryOf_cases (n : Nat) :
    chargeCategoryOf n = "Usage" ∨ chargeCategoryOf n = "Purchase" ∨
    chargeCategoryOf n = "Tax" ∨ chargeCategoryOf n = "Credit" ∨
    chargeCategoryOf n = "Adjustment" := by
  unfold chargeCategoryOf
  split_ifs <;> simp

lemma chargeFrequencyOf_cases (cat : String) (n : Nat) :
    chargeFrequencyOf cat n = "One-Time" ∨
    chargeFrequencyOf cat n = "Recurring" ∨
    chargeFrequencyOf cat n = "Usage-Based" := by
  unfold chargeFrequencyOf
  split_ifs <;> simp

lemma chargeFrequencyOf_purchase (n : Nat) :
    chargeFrequencyOf "Purchase" n ≠ "Usage-Based" := by
  unfold chargeFrequencyOf
  split_ifs <;> simp_all

lemma profileBase_pos (p : Profile) : 0 < profileBase p := by
  cases p <;> norm_num [profileBase]

lemma cost_le {x u v : Int} (hx : 0 ≤ x) (hu : 0 ≤ u) (hv : 0 ≤ v) :
    x ≤ x + x * u / 100 + x * v / 100 := by
  have h1 : 0 ≤ x * u / 100 := Int.ediv_nonneg (mul_nonneg hx hu) (by norm_num)
  have h2 : 0 ≤ x * v / 100 := Int.ediv_nonneg (mul_nonneg hx hv) (by norm_num)
  linarith

/-- Every generated row passes every basic per-column check. -/
lemma checksFor_genRow (idx : Nat) (req : GenerationRequest) (seed i : Nat)
    (c : ColumnName) : checksFor idx (genRow req seed i) c = [] := by
  cases c <;>
    simp [checksFor, getCol, genRow, featureLevel, allowsNulls, dataType,
      allowedValues, typeMatches, allowedOk] <;>
    try (split_ifs <;> simp [typeMatches, allowedOk, statusOf])
  case chargeCategory =>
    intro h1 h2 h3 h4
    rcases chargeCategoryOf_cases (rv (seed + i) 0) with h | h | h | h | h <;>
      simp_all
  case chargeFrequency =>
    intro h1 h2
    rcases chargeFrequencyOf_cases (chargeCategoryOf (rv (seed + i) 0))
        (rv (seed + i) 1) with h | h | h <;>
      simp_all

lemma catMap_nil {f : ColumnName → List Violation} (h : ∀ c, f c = []) :
    ∀ l, catMap f l = []
  | [] => rfl
  | c :: cs => by simp [catMap, h c, catMap_nil h cs]

lemma basicViolations_genRow (idx : Nat) (req : GenerationRequest)
    (seed i : Nat) : basicViolations idx (genRow req seed i) = [] :=
  catMap_nil (checksFor_genRow idx req seed i) allColumns

/-- Every generated row passes every enhanced cross-column check. -/
lemma enhancedViolations_genRow (idx : Nat) (req : GenerationRequest)
    (seed i : Nat) : enhancedViolations idx (genRow req seed i) = [] := by
  have h5 : (0 : Int) ≤ (rv (seed + i) 5 : Int) % 100 :=
    Int.emod_nonneg _ (by norm_num)
  have hx : (0 : Int) ≤
      profileBase req.profile * (1 + (rv (seed + i) 5 : Int) % 100) :=
    mul_nonneg (profileBase_pos req.profile).le (by linarith)
  have hu : (0 : Int) ≤ (rv (seed + i) 6 : Int) % 50 :=
    Int.emod_nonneg _ (by norm_num)
  have hv : (0 : Int) ≤ (rv (seed + i) 7 : Int) % 30 :=
    Int.emod_nonneg _ (by norm_num)
  by_cases htax : chargeCategoryOf (rv (seed + i) 0) = "Tax" <;>
    by_cases hcommit : rv (seed + i) 8 % 4 = 0 <;>
    simp [enhancedViolations, genRow, asDt, asDec, htax, hcommit] <;>
    split_ifs <;>
    (repeat' apply And.intro) <;>
    first
      | omega
      | exact hx
      | exact cost_le hx hu hv
      | (intro hp; rw [hp]; exact chargeFrequencyOf_purchase _)

lemma rowViolations_genRow (idx : Nat) (req : GenerationRequest)
    (seed i : Nat) : rowViolations idx (genRow req seed i) = [] := by
  simp [rowViolations, basicViolations_genRow, enhancedViolations_genRow]

lemma datasetViolations_nil {rs : List FocusRecord}
    (h : ∀ r ∈ rs, ∀ j, rowViolations j r = []) :
    ∀ idx, datasetViolations idx rs = [] := by
  induction rs with
  | nil => intro idx; rfl
  | cons r rs ih =>
      intro idx
      have hr := h r (by simp)
      have hrest : ∀ x ∈ rs, ∀ j, rowViolations j x = [] :=
        fun x hx => h x (by simp [hx])
      simp [datasetViolations, hr idx, ih hrest (idx + 1)]

/-- Every record of a generated dataset is some `genRow req seed i` with
`i < totalRows req`. -/
lemma mem_generate {req : GenerationRequest} {seed : Nat} {r : FocusRecord}
    (h : r ∈ generate req seed) :
    ∃ i, i < totalRows req ∧ r = genRow req seed i := by
  simp only [generate, List.mem_map, List.mem_range] at h
  obtain ⟨i, hi, rfl⟩ := h
  exact ⟨i, hi, rfl⟩

lemma generate_length (req : GenerationRequest) (seed : Nat) :
    (generate req seed).length = totalRows req := by
  simp [generate]

/-- Output produced by the engine itself always validates cleanly. -/
lemma validate_generate (req : GenerationRequest) (seed : Nat) :
    validate (generate req seed) = ⟨true, []⟩ := by
  have h : ∀ r ∈ generate req seed, ∀ j, rowViolations j r = [] := by
    intro r hr j
    obtain ⟨i, _, rfl⟩ := mem_generate hr
    exact rowViolations_genRow j req seed i
  simp [validate, datasetViolations_nil h 0]

/-! ## The orchestrator as a run relation

A run of the Orchestrator over a request: starting at row index 0, each
step draws the next record from the per-row seeded stream and appends it,
stopping after `totalRows` rows.  `Generates req seed out` holds of every
output sequence an orchestrator run can produce; the relation lets
determinism be stated about runs rather than as an identity. -/

inductive RowsFrom (req : GenerationRequest) (seed : Nat) :
    Nat → List FocusRecord → Prop where
  | nil : RowsFrom req seed (totalRows req) []
  | cons {i : Nat} {rest : List FocusRecord} (hi : i < totalRows req)
      (h : RowsFrom req seed (i + 1) rest) :
      RowsFrom req seed i (genRow req seed i :: rest)

/-- `out` is a possible output of an orchestrator run on `req` with RNG
seed `seed`. -/
def Generates (req : GenerationRequest) (seed : Nat)
    (out : List FocusRecord) : Prop :=
  RowsFrom req seed 0 out

lemma rowsFrom_det {req : GenerationRequest} {seed : Nat} {i : Nat}
    {o1 o2 : List FocusRecord} (h1 : RowsFrom req seed i o1)
    (h2 : RowsFrom req seed i o2) : o1 = o2 := by
  induction h1 generalizing o2 with
  | nil =>
      cases h2 with
      | nil => rfl
      | cons hi h => omega
  | cons hi h ih =>
      cases h2 with
      | nil => omega
      | cons hi2 h2 => rw [ih h2]

lemma rowsFrom_range (req : GenerationRequest) (seed : Nat) :
    ∀ (k j : Nat), j + k = totalRows req →
      RowsFrom req seed j ((List.range' j k).map (genRow req seed))
  | 0, j, h => by
      have hj : j = totalRows req := by omega
      subst hj
      simpa [List.range'] using RowsFrom.nil
  | k + 1, j, h => by
      have hc : List.range' j (k + 1) = j :: List.range' (j + 1) k := rfl
      rw [hc]
      exact RowsFrom.cons (by omega)
        (rowsFrom_range req seed k (j + 1) (by omega))

/-- The functional orchestrator realizes the run relation. -/
lemma generates_generate (req : GenerationRequest) (seed : Nat) :
    Generates req seed (generate req seed) := by
  have h := rowsFrom_range req seed (totalRows req) 0 (by omega)
  simpa [Generates, generate, List.range_eq_range'] using h

/-! ## The frontend boundary (`useFocusGenerator.js`)

Shallow embedding of the hook state and of `generateCUR` and
`handleRowCountChange` from `src/frontend/src/hooks/useFocusGenerator.js`.
The HTTP transport is external: the outcome of the axios POST is a
parameter, and the second component of the result records the request body
posted, `none` when no request was issued. -/

/-- A JSON-like value of the posted request body. -/
inductive BodyVal where
  | s (v : String)
  | n (v : Int)
  | b (v : Bool)
  | list (vs : List String)
  | trend (monthCount : Int) (scenario : String)
deriving DecidableEq

/-- The request body built by `generateCUR` (lines 106-116): `profile`,
`distribution` (with the falsy-fallback to "Evenly Distributed"),
`row_count` (the parsed row count), `providers` and `multi_month` always;
`trend_options` added only when `multiMonth` holds and a `trendOptions`
value was supplied. -/
def buildRequestBody (selectedProfile distribution : String) (rowCount : Int)
    (providers : List String) (multiMonth : Bool)
    (trendOptions : Option (Int × String)) : List (String × BodyVal) :=
  let base := [("profile", BodyVal.s selectedProfile),
    ("distribution",
      BodyVal.s (if distribution = "" then "Evenly Distributed"
                 else distribution)),
    ("row_count", BodyVal.n rowCount),
    ("providers", BodyVal.list providers),
    ("multi_month", BodyVal.b multiMonth)]
  match multiMonth, trendOptions with
  | true, some t => base ++ [("trend_options", BodyVal.trend t.1 t.2)]
  | _, _ => base

/-- The hook state touched by `generateCUR`: `response`, `isReset`,
`isLoading`. -/
structure HookState where
  response : Option String
  isReset : Bool
  isLoading : Bool
deriving DecidableEq

/-- `generateCUR` (lines 90-152): returns the hook state after the call
completes together with the body of the HTTP request it posted (`none`
when the guard clauses returned early and no request was issued).  On a
successful response it stores the data, flips `isReset` and clears
`isLoading`; on a failed request it only clears `isLoading`. -/
def generateCUR (st : HookState) (selectedProfile distribution : String)
    (rowCount : Int) (providers : List String)
    (trendOptions : Option (Int × String)) (multiMonth : Bool)
    (apiResult : Except Unit String) :
    HookState × Option (List (String × BodyVal)) :=
  if selectedProfile = "" ∨ distribution = "" then (st, none)
  else if providers = [] then (st, none)
  else
    let body := buildRequestBody selectedProfile distribution rowCount
      providers multiMonth trendOptions
    match apiResult with
    | .ok data => (⟨some data, true, false⟩, some body)
    | .error _ => (⟨st.response, st.isReset, false⟩, some body)

/-- The test of the regular expression of `handleRowCountChange`
(line 166): a non-empty digit string whose first character is 1-9. -/
def rowCountPattern (s : String) : Bool :=
  match s.data with
  | [] => false
  | c :: cs =>
      decide ('1' ≤ c) && decide (c ≤ '9') &&
        cs.all (fun d => decide ('0' ≤ d) && decide (d ≤ '9'))

/-- `handleRowCountChange` (lines 165-169): the row-count input is updated
only when the new value is empty or matches the positive-integer pattern;
otherwise the previous value is kept. -/
def handleRowCountChange (value : String) (rowCount : String) : String :=
  if value = "" || rowCountPattern value then value else rowCount

/-! ## Claims -/

/-- A small concrete request used by the witnesses (Scenario A of the
specification). -/
def sampleRequest : GenerationRequest :=
  ⟨.Greenfield, .EvenlyDistributed, [.AWS], 5, false, none⟩

/-- A 20-row request whose 13th row (index 12, seed 42) carries a Tax
charge. -/
def taxRequest : GenerationRequest :=
  ⟨.Greenfield, .EvenlyDistributed, [.AWS], 20, false, none⟩

/-- A malformed request with a negative row count (Scenario C). -/
def badRequest : GenerationRequest :=
  ⟨.Greenfield, .EvenlyDistributed, [.AWS], -1, false, none⟩

lemma genRow_mem_generate (req : GenerationRequest) (seed i : Nat)
    (hi : i < totalRows req) : genRow req seed i ∈ generate req seed :=
  List.mem_map_of_mem _ (List.mem_range.mpr hi)

/-- C1: for every valid GenerationRequest, the dataset returned by
`generate` passes `validate` with `valid = true` and an empty violations
sequence — the engine output always passes its own validation. -/
theorem generate_output_passes_validation (req : GenerationRequest)
    (seed : Nat) (hreq : ValidRequest req) :
    (validate (generate req seed)).valid = true ∧
    (validate (generate req seed)).violations = [] := by
  rw [validate_generate]
  exact ⟨rfl, rfl⟩

theorem generate_output_passes_validation_witness :
    ValidRequest sampleRequest ∧
      ((validate (generate sampleRequest 42)).valid = true ∧
       (validate (generate sampleRequest 42)).violations = []) :=
  ⟨by decide, generate_output_passes_validation sampleRequest 42 (by decide)⟩

/-- C2: two orchestrator runs with an identical request and identical RNG
seed produce identical output sequences — the same records, in the same
order, with equal values in every column. -/
theorem generate_run_deterministic (req : GenerationRequest) (seed : Nat)
    (o1 o2 : List FocusRecord) (h1 : Generates req seed o1)
    (h2 : Generates req seed o2) : o1 = o2 :=
  rowsFrom_det h1 h2

theorem generate_run_deterministic_witness :
    Generates sampleRequest 42 (generate sampleRequest 42) ∧
      generate sampleRequest 42 = generate sampleRequest 42 :=
  ⟨generates_generate _ _,
   generate_run_deterministic sampleRequest 42 _ _
     (generates_generate _ _) (generates_generate _ _)⟩

/-- C3: in every dataset returned by `generate`, every column whose Schema
Catalog feature level is Mandatory holds a non-null value in every row. -/
theorem generated_mandatory_columns_nonnull (req : GenerationRequest)
    (seed : Nat) (hreq : ValidRequest req) (r : FocusRecord)
    (hr : r ∈ generate req seed) (c : ColumnName)
    (hc : featureLevel c = .Mandatory) : getCol r c ≠ none := by
  obtain ⟨i, _, rfl⟩ := mem_generate hr
  cases c <;>
    first
      | exact absurd hc (by decide)
      | simp [getCol, genRow]

theorem generated_mandatory_columns_nonnull_witness :
    ValidRequest sampleRequest ∧
      genRow sampleRequest 42 0 ∈ generate sampleRequest 42 ∧
      featureLevel .billedCost = .Mandatory ∧
      getCol (genRow sampleRequest 42 0) .billedCost ≠ none :=
  ⟨by decide, genRow_mem_generate sampleRequest 42 0 (by decide), rfl,
   generated_mandatory_columns_nonnull sampleRequest 42 (by decide) _
     (genRow_mem_generate sampleRequest 42 0 (by decide)) .billedCost rfl⟩

/-- C4: in every row of every dataset returned by `generate`,
CommitmentDiscountId is null exactly when every other CommitmentDiscount
column (Name, Status, Type, Category, Quantity, Unit) is null. -/
theorem generated_commitment_discount_chain (req : GenerationRequest)
    (seed : Nat) (hreq : ValidRequest req) (r : FocusRecord)
    (hr : r ∈ generate req seed) :
    (r.commitmentDiscountId = none ↔
      (r.commitmentDiscountName = none ∧ r.commitmentDiscountStatus = none ∧
       r.commitmentDiscountType = none ∧
       r.commitmentDiscountCategory = none ∧
       r.commitmentDiscountQuantity = none ∧
       r.commitmentDiscountUnit = none)) := by
  obtain ⟨i, _, rfl⟩ := mem_generate hr
  by_cases hcommit : rv (seed + i) 8 % 4 = 0 <;> simp [genRow, hcommit]

theorem generated_commitment_discount_chain_witness :
    ValidRequest sampleRequest ∧
      genRow sampleRequest 42 1 ∈ generate sampleRequest 42 ∧
      ((genRow sampleRequest 42 1).commitmentDiscountId = none ↔
        ((genRow sampleRequest 42 1).commitmentDiscountName = none ∧
         (genRow sampleRequest 42 1).commitmentDiscountStatus = none ∧
         (genRow sampleRequest 42 1).commitmentDiscountType = none ∧
         (genRow sampleRequest 42 1).commitmentDiscountCategory = none ∧
         (genRow sampleRequest 42 1).commitmentDiscountQuantity = none ∧
         (genRow sampleRequest 42 1).commitmentDiscountUnit = none)) :=
  ⟨by decide, genRow_mem_generate sampleRequest 42 1 (by decide),
   generated_commitment_discount_chain sampleRequest 42 (by decide) _
     (genRow_mem_generate sampleRequest 42 1 (by decide))⟩

/-- C5: in every row of every dataset returned by `generate`, the four
period timestamps satisfy BillingPeriodStart ≤ ChargePeriodStart ≤
ChargePeriodEnd ≤ BillingPeriodEnd. -/
theorem generated_period_chain (req : GenerationRequest) (seed : Nat)
    (hreq : ValidRequest req) (r : FocusRecord)
    (hr : r ∈ generate req seed) :
    ∃ bs cs ce be,
      r.billingPeriodStart = some (.dt bs) ∧
      r.chargePeriodStart = some (.dt cs) ∧
      r.chargePeriodEnd = some (.dt ce) ∧
      r.billingPeriodEnd = some (.dt be) ∧
      bs ≤ cs ∧ cs ≤ ce ∧ ce ≤ be := by
  obtain ⟨i, _, rfl⟩ := mem_generate hr
  refine ⟨_, _, _, _, rfl, rfl, rfl, rfl, ?_, ?_, ?_⟩ <;>
    (try split_ifs) <;> omega

theorem generated_period_chain_witness :
    ValidRequest sampleRequest ∧
      genRow sampleRequest 42 2 ∈ generate sampleRequest 42 ∧
      (∃ bs cs ce be,
        (genRow sampleRequest 42 2).billingPeriodStart = some (.dt bs) ∧
        (genRow sampleRequest 42 2).chargePeriodStart = some (.dt cs) ∧
        (genRow sampleRequest 42 2).chargePeriodEnd = some (.dt ce) ∧
        (genRow sampleRequest 42 2).billingPeriodEnd = some (.dt be) ∧
        bs ≤ cs ∧ cs ≤ ce ∧ ce ≤ be) :=
  ⟨by decide, genRow_mem_generate sampleRequest 42 2 (by decide),
   generated_period_chain sampleRequest 42 (by decide) _
     (genRow_mem_generate sampleRequest 42 2 (by decide))⟩

/-- C6: in every row of every dataset returned by `generate`, a charge
category of Tax forces both SkuId and SkuPriceId to be null. -/
theorem generated_tax_rows_sku_null (req : GenerationRequest) (seed : Nat)
    (hreq : ValidRequest req) (r : FocusRecord)
    (hr : r ∈ generate req seed)
    (htax : r.chargeCategory = some (.str "Tax")) :
    r.skuId = none ∧ r.skuPriceId = none := by
  obtain ⟨i, _, rfl⟩ := mem_generate hr
  have hc : chargeCategoryOf (rv (seed + i) 0) = "Tax" := by
    simpa [genRow] using htax
  simp [genRow, hc]

theorem generated_tax_rows_sku_null_witness :
    ValidRequest taxRequest ∧
      genRow taxRequest 42 12 ∈ generate taxRequest 42 ∧
      (genRow taxRequest 42 12).chargeCategory = some (.str "Tax") ∧
      ((genRow taxRequest 42 12).skuId = none ∧
       (genRow taxRequest 42 12).skuPriceId = none) :=
  ⟨by decide, genRow_mem_generate taxRequest 42 12 (by decide), by decide,
   generated_tax_rows_sku_null taxRequest 42 (by decide) _
     (genRow_mem_generate taxRequest 42 12 (by decide)) (by decide)⟩

/-- C7: in every row of every dataset returned by `generate`, BilledCost
is non-negative, and whenever EffectiveCost and ListCost are both present,
EffectiveCost ≤ ListCost. -/
theorem generated_cost_ordering (req : GenerationRequest) (seed : Nat)
    (hreq : ValidRequest req) (r : FocusRecord)
    (hr : r ∈ generate req seed) :
    (∃ b, r.billedCost = some (.dec b) ∧ 0 ≤ b) ∧
    (∀ e l, r.effectiveCost = some (.dec e) → r.listCost = some (.dec l) →
      e ≤ l) := by
  obtain ⟨i, _, rfl⟩ := mem_generate hr
  have hx : (0 : Int) ≤
      profileBase req.profile * (1 + (rv (seed + i) 5 % 100 : Nat)) :=
    mul_nonneg (profileBase_pos req.profile).le (Int.natCast_nonneg _)
  constructor
  · exact ⟨_, rfl, hx⟩
  · intro e l he hl
    simp only [genRow] at he hl
    cases he
    cases hl
    have hu : (0 : Int) ≤
        profileBase req.profile * (1 + (rv (seed + i) 5 % 100 : Nat)) *
          (rv (seed + i) 6 % 50 : Nat) / 100 :=
      Int.ediv_nonneg (mul_nonneg hx (Int.natCast_nonneg _)) (by norm_num)
    have hv : (0 : Int) ≤
        profileBase req.profile * (1 + (rv (seed + i) 5 % 100 : Nat)) *
          (rv (seed + i) 7 % 30 : Nat) / 100 :=
      Int.ediv_nonneg (mul_nonneg hx (Int.natCast_nonneg _)) (by norm_num)
    linarith

theorem generated_cost_ordering_witness :
    ValidRequest sampleRequest ∧
      genRow sampleRequest 42 3 ∈ generate sampleRequest 42 ∧
      ((∃ b, (genRow sampleRequest 42 3).billedCost = some (.dec b) ∧
        0 ≤ b) ∧
       (∀ e l, (genRow sampleRequest 42 3).effectiveCost = some (.dec e) →
        (genRow sampleRequest 42 3).listCost = some (.dec l) → e ≤ l)) :=
  ⟨by decide, genRow_mem_generate sampleRequest 42 3 (by decide),
   generated_cost_ordering sampleRequest 42 (by decide) _
     (genRow_mem_generate sampleRequest 42 3 (by decide))⟩

/-- C8: a request whose row count is non-positive is rejected by the core
with a ConfigurationError (so no rows are produced: the error result
carries no records), and the boundary rejects such an input before it
reaches the core — `handleRowCountChange` keeps the previous value on the
input "-1". -/
theorem nonpositive_row_count_rejected (req : GenerationRequest)
    (seed : Nat) (h : req.rowCount ≤ 0) :
    generateChecked req seed = .error .configurationError ∧
      (∀ cur, handleRowCountChange "-1" cur = cur) := by
  refine ⟨by simp [generateChecked, h], fun cur => rfl⟩

theorem nonpositive_row_count_rejected_witness :
    badRequest.rowCount ≤ 0 ∧
      generateChecked badRequest 42 = .error .configurationError ∧
      handleRowCountChange "-1" "20" = "20" :=
  ⟨by decide, (nonpositive_row_count_rejected badRequest 42 (by decide)).1,
   (nonpositive_row_count_rejected badRequest 42 (by decide)).2 "20"⟩

/-- C9: the request body posted by `generateCUR` contains a trend_options
field exactly when multiMonth is true and a trendOptions value was
supplied; when multiMonth is false there is no trend_options field, while
profile, distribution, row_count, providers and multi_month are always
present. -/
theorem request_body_trend_options_shape (selectedProfile distribution :
    String) (rowCount : Int) (providers : List String) (multiMonth : Bool)
    (trendOptions : Option (Int × String)) :
    (("trend_options" ∈ (buildRequestBody selectedProfile distribution
        rowCount providers multiMonth trendOptions).map Prod.fst) ↔
      (multiMonth = true ∧ trendOptions ≠ none)) ∧
    (multiMonth = false →
      "trend_options" ∉ (buildRequestBody selectedProfile distribution
        rowCount providers multiMonth trendOptions).map Prod.fst) ∧
    "profile" ∈ (buildRequestBody selectedProfile distribution rowCount
      providers multiMonth trendOptions).map Prod.fst ∧
    "distribution" ∈ (buildRequestBody selectedProfile distribution rowCount
      providers multiMonth trendOptions).map Prod.fst ∧
    "row_count" ∈ (buildRequestBody selectedProfile distribution rowCount
      providers multiMonth trendOptions).map Prod.fst ∧
    "providers" ∈ (buildRequestBody selectedProfile distribution rowCount
      providers multiMonth trendOptions).map Prod.fst ∧
    "multi_month" ∈ (buildRequestBody selectedProfile distribution rowCount
      providers multiMonth trendOptions).map Prod.fst := by
  cases multiMonth <;> cases trendOptions <;> simp [buildRequestBody]

/-- C10: when the profile or the distribution is empty, or the provider
list is empty, `generateCUR` issues no HTTP request and leaves the hook
state (response, isReset, isLoading) unchanged. -/
theorem generateCUR_precondition_atomicity (st : HookState)
    (selectedProfile distribution : String) (rowCount : Int)
    (providers : List String) (trendOptions : Option (Int × String))
    (multiMonth : Bool) (api : Except Unit String)
    (h : selectedProfile = "" ∨ distribution = "" ∨ providers = []) :
    generateCUR st selectedProfile distribution rowCount providers
      trendOptions multiMonth api = (st, none) := by
  rcases h with h | h | h
  · simp [generateCUR, h]
  · simp [generateCUR, h]
  · rcases eq_or_ne selectedProfile "" with h1 | h1
    · simp [generateCUR, h1]
    · rcases eq_or_ne distribution "" with h2 | h2
      · simp [generateCUR, h2]
      · simp [generateCUR, h, h1, h2]

theorem generateCUR_precondition_atomicity_witness :
    ((("" : String) = "" ∨ ("AWS-dist" : String) = "" ∨
        ([] : List String) = []) ∧
      generateCUR ⟨none, false, false⟩ "" "AWS-dist" 20 []
        none false (.error ()) = (⟨none, false, false⟩, none)) :=
  ⟨Or.inl rfl,
   generateCUR_precondition_atomicity ⟨none, false, false⟩ "" "AWS-dist" 20
     [] none false (.error ()) (Or.inl rfl)⟩

end FocusGen
